import Mathlib

/-!
Verification of `rfxcom/protocol/base.py`: the base packet / packet-handler
layer of an RFXtrx frame decoder.  Frames are byte sequences, modelled as
`List Nat`; the Python dictionaries `PACKET_TYPES` / `PACKET_SUBTYPES`
(integer code → name) are modelled as association lists.  Python exceptions
are modelled with `Except`: the four RFXCom validation errors on one side,
and `IndexError` (raised by out-of-range `bytearray` indexing) on the other.
-/

namespace Rfxcom

/-- Modelled from the spec: the module `rfxcom.exceptions` is not part of the
sources at hand; per the spec's error taxonomy it provides the four
recoverable validation failures, each a subclass of `RFXComException`:
`InvalidPacketLength`, `MalformedPacket`, `UnknownPacketType`,
`UnknownPacketSubtype`.  Each carries the data interpolated into its message
in `base.py`. -/
inductive RFXError : Type
  | invalidPacketLength (expected actual : Nat)
  | malformedPacket (actual : Nat)
  | unknownPacketType (types : List Nat) (received : Nat)
  | unknownPacketSubtype (subtypes : List Nat) (received : Nat)
  deriving Repr, DecidableEq

/-- A Python-level failure: either one of the `RFXComException` subclasses
above, or an `IndexError` from indexing a `bytearray` out of range (which is
not an `RFXComException`). -/
inductive PyError : Type
  | rfx (e : RFXError)
  | indexError
  deriving Repr, DecidableEq

/-- A raw frame: the `bytearray` received from the transceiver. -/
abbrev Frame := List Nat

/-- A Python dict from integer code to name, as an association list. -/
abbrev Table := List (Nat × String)

/-- The keys of a table (`self.PACKET_TYPES` iterated as a dict). -/
def tableKeys (t : Table) : List Nat := t.map Prod.fst

/-- Python `d.get(k)`: the value at `k`, or `None` when absent. -/
def tableGet (t : Table) (k : Nat) : Option String :=
  (t.find? (fun p => p.fst == k)).map Prod.snd

/-- Python `k in d` on a dict: key membership. -/
def tableMem (t : Table) (k : Nat) : Bool :=
  t.any (fun p => p.fst == k)

/-- The configuration of a `BasePacketHandler`: its two tables, set up at
construction time (`self.PACKET_TYPES`, `self.PACKET_SUBTYPES`). -/
structure Handler where
  PACKET_TYPES : Table
  PACKET_SUBTYPES : Table

/-- `BasePacketHandler.validate_packet`.  Checks, in order: the first byte
plus one equals the frame length (else `InvalidPacketLength`); the expected
length is at least 4 (else `MalformedPacket`); when `PACKET_TYPES` is
non-empty (Python truthiness of a dict), byte 1 is one of its keys (else
`UnknownPacketType`); when `PACKET_SUBTYPES` is non-empty, byte 2 is one of
its keys (else `UnknownPacketSubtype`).  Returns `True` when all pass.
Byte reads are modelled by `List.get?`, with `IndexError` when out of
range, exactly where Python's `data[i]` would raise. -/
def validate_packet (h : Handler) (data : Frame) : Except PyError Bool :=
  match data.get? 0 with
  | none => .error .indexError
  | some b0 =>
    let expected_length := b0 + 1
    if data.length ≠ expected_length then
      .error (.rfx (.invalidPacketLength expected_length data.length))
    else if expected_length < 4 then
      .error (.rfx (.malformedPacket data.length))
    else
      match data.get? 1 with
      | none => .error .indexError
      | some packet_type =>
        if h.PACKET_TYPES ≠ [] ∧ tableMem h.PACKET_TYPES packet_type = false then
          .error (.rfx (.unknownPacketType (tableKeys h.PACKET_TYPES) packet_type))
        else
          match data.get? 2 with
          | none => .error .indexError
          | some sub_type =>
            if h.PACKET_SUBTYPES ≠ [] ∧ tableMem h.PACKET_SUBTYPES sub_type = false then
              .error (.rfx (.unknownPacketSubtype (tableKeys h.PACKET_SUBTYPES) sub_type))
            else
              .ok true

/-- `BasePacketHandler.can_handle`: runs `validate_packet` inside
`try ... except RFXComException: return False`.  An `RFXComException`
becomes `False`; any other failure (such as `IndexError`) propagates. -/
def can_handle (h : Handler) (data : Frame) : Except PyError Bool :=
  match validate_packet h data with
  | .ok b => .ok b
  | .error (.rfx _) => .ok false
  | .error .indexError => .error .indexError

/-- The dictionary returned by `BasePacket.parse_header_part`. -/
structure Header where
  packet_length : Nat
  packet_type : Nat
  packet_type_name : Option String
  packet_subtype : Nat
  packet_subtype_name : Option String
  sequence_number : Nat
  deriving Repr, DecidableEq

/-- `BasePacket.parse_header_part`: reads bytes 0–3 (raising `IndexError`
when the frame is shorter) and resolves the type and subtype names through
the handler's tables with `dict.get`, which yields `None` when absent. -/
def parse_header_part (h : Handler) (data : Frame) : Except PyError Header :=
  match data.get? 0, data.get? 1, data.get? 2, data.get? 3 with
  | some b0, some b1, some b2, some b3 =>
    .ok { packet_length := b0
          packet_type := b1
          packet_type_name := tableGet h.PACKET_TYPES b1
          packet_subtype := b2
          packet_subtype_name := tableGet h.PACKET_SUBTYPES b2
          sequence_number := b3 }
  | _, _, _, _ => .error .indexError

/-- The dictionary returned by the catch-all `Packet.parse`. -/
structure RawParsed where
  packet_length : Nat
  packet_type : Nat
  packet_subtype : Nat
  packet : Frame
  deriving Repr, DecidableEq

namespace Packet

/-- `Packet.can_handle`: the catch-all variant accepts everything. -/
def can_handle (_data : Frame) : Bool := true

/-- `Packet.parse`: reads bytes 0, 1 and 2 (raising `IndexError` when the
frame is shorter) and returns them together with the whole frame. -/
def parse (data : Frame) : Except PyError RawParsed :=
  match data.get? 0, data.get? 1, data.get? 2 with
  | some b0, some b1, some b2 =>
    .ok { packet_length := b0, packet_type := b1, packet_subtype := b2, packet := data }
  | _, _, _ => .error .indexError

end Packet

/-- The instance state set by `BasePacket.load`: `self.loaded_at`,
`self.raw` and `self.data`.  The timestamp is an opaque clock reading. -/
structure LoadedState (α : Type) where
  loaded_at : Nat
  raw : Frame
  data : α

/-- `BasePacket.load`: records the capture time and the raw frame, runs the
variant's `parse`, stores and returns its result.  `parse` is the method
the subclass supplies; `now` is the `datetime.utcnow()` reading.  When
`parse` raises, `load` propagates the failure. -/
def load {α : Type} (parse : Frame → Except PyError α) (now : Nat)
    (data : Frame) : Except PyError (LoadedState α) :=
  match parse data with
  | .ok d => .ok { loaded_at := now, raw := data, data := d }
  | .error e => .error e

/-- Helper: the first check fires whenever the tail length differs from the
first byte. -/
theorem validate_packet_mismatch (h : Handler) (b0 : Nat) (rest : List Nat)
    (hne : rest.length ≠ b0) :
    validate_packet h (b0 :: rest) =
      .error (.rfx (.invalidPacketLength (b0 + 1) (b0 :: rest).length)) := by
  simp [validate_packet, hne]

/-- Helper: a taxonomy failure inside `validate_packet` makes `can_handle`
return `False`. -/
theorem can_handle_of_rfx (h : Handler) (data : Frame) (e : RFXError)
    (hv : validate_packet h data = .error (.rfx e)) :
    can_handle h data = .ok false := by
  simp [can_handle, hv]

/-- C2: for every non-empty frame whose length differs from its first byte
plus one, `validate_packet` raises `InvalidPacketLength` carrying expected
length `f[0] + 1` and actual length `len(f)` — before any other check. -/
theorem validate_length_mismatch (h : Handler) (b0 : Nat) (rest : List Nat)
    (hlen : (b0 :: rest).length ≠ b0 + 1) :
    validate_packet h (b0 :: rest) =
      .error (.rfx (.invalidPacketLength (b0 + 1) (b0 :: rest).length)) :=
  validate_packet_mismatch h b0 rest (fun he => hlen (by simp [he]))

/-- Witness for C2: the two-byte frame `[5, 0]` declares six bytes, so
validation reports expected length 6 and actual length 2. -/
theorem validate_length_mismatch_witness :
    validate_packet ⟨[], []⟩ [5, 0] =
      .error (.rfx (.invalidPacketLength 6 2)) :=
  validate_length_mismatch ⟨[], []⟩ 5 [0] (by decide)

/-- C1: a frame whose length matches its first byte plus one and holds at
least the four header bytes, whose type byte is in the type table whenever
that table is non-empty and whose subtype byte is in the subtype table
whenever that table is non-empty, validates successfully; with both tables
empty the hypotheses on bytes 1 and 2 hold vacuously, so any type and
subtype are accepted. -/
theorem validate_ok (h : Handler) (b0 b1 b2 b3 : Nat) (rest : List Nat)
    (hlen : (b0 :: b1 :: b2 :: b3 :: rest).length = b0 + 1)
    (ht : h.PACKET_TYPES ≠ [] → tableMem h.PACKET_TYPES b1 = true)
    (hs : h.PACKET_SUBTYPES ≠ [] → tableMem h.PACKET_SUBTYPES b2 = true) :
    validate_packet h (b0 :: b1 :: b2 :: b3 :: rest) = .ok true := by
  have hb0 : b0 = rest.length + 3 := by simp at hlen; omega
  subst hb0
  have ht' : ¬(h.PACKET_TYPES ≠ [] ∧ tableMem h.PACKET_TYPES b1 = false) := by
    rintro ⟨hne, hmem⟩
    rw [ht hne] at hmem
    cases hmem
  have hs' : ¬(h.PACKET_SUBTYPES ≠ [] ∧ tableMem h.PACKET_SUBTYPES b2 = false) := by
    rintro ⟨hne, hmem⟩
    rw [hs hne] at hmem
    cases hmem
  simp [validate_packet, ht', hs']

/-- Witness for C1: a handler knowing type `0x20` and subtype `0x01`
accepts the frame `[7, 0x20, 0x01, 5, 0, 0, 0, 0]`. -/
theorem validate_ok_witness :
    validate_packet ⟨[(32, "t")], [(1, "s")]⟩ [7, 32, 1, 5, 0, 0, 0, 0] =
      .ok true :=
  validate_ok ⟨[(32, "t")], [(1, "s")]⟩ 7 32 1 5 [0, 0, 0, 0]
    (by decide) (fun _ => by decide) (fun _ => by decide)

/-- C3: for a frame whose first byte plus one is below four, validation
raises `MalformedPacket` when the first length check passed (frame length
equals first byte plus one, so the actual length is also below four), and
`InvalidPacketLength` when the first length check fails — the mismatch
check comes first. -/
theorem validate_below_minimum (h : Handler) (b0 : Nat) (rest : List Nat)
    (hb : b0 + 1 < 4) :
    ((b0 :: rest).length = b0 + 1 →
       validate_packet h (b0 :: rest) =
         .error (.rfx (.malformedPacket (b0 :: rest).length))) ∧
    ((b0 :: rest).length ≠ b0 + 1 →
       validate_packet h (b0 :: rest) =
         .error (.rfx (.invalidPacketLength (b0 + 1) (b0 :: rest).length))) := by
  constructor
  · intro hlen
    have h' : rest.length = b0 := by simp at hlen; omega
    subst h'
    simp [validate_packet, hb]
  · intro hlen
    exact validate_packet_mismatch h b0 rest (fun he => hlen (by simp [he]))

/-- Witness for C3: the frame `[2, 0, 0]` declares three bytes and has
three, so it is rejected as `MalformedPacket`; the frame `[2, 0]` declares
three bytes but has two, so it is rejected as `InvalidPacketLength`. -/
theorem validate_below_minimum_witness :
    (2 + 1 < 4) ∧
    validate_packet ⟨[], []⟩ [2, 0, 0] = .error (.rfx (.malformedPacket 3)) ∧
    validate_packet ⟨[], []⟩ [2, 0] = .error (.rfx (.invalidPacketLength 3 2)) :=
  ⟨by decide,
   (validate_below_minimum ⟨[], []⟩ 2 [0, 0] (by decide)).1 (by decide),
   (validate_below_minimum ⟨[], []⟩ 2 [0] (by decide)).2 (by decide)⟩

/-- C4: on a frame passing both length checks, a non-empty type table not
containing byte 1 makes `validate_packet` raise `UnknownPacketType` with
the accepted codes and the offending value, and makes `can_handle` return
`False`; and when the type check passes, a non-empty subtype table not
containing byte 2 makes it raise `UnknownPacketSubtype`. -/
theorem validate_unknown_codes (h : Handler) (b0 b1 b2 b3 : Nat)
    (rest : List Nat)
    (hlen : (b0 :: b1 :: b2 :: b3 :: rest).length = b0 + 1) :
    (h.PACKET_TYPES ≠ [] → tableMem h.PACKET_TYPES b1 = false →
       validate_packet h (b0 :: b1 :: b2 :: b3 :: rest) =
         .error (.rfx (.unknownPacketType (tableKeys h.PACKET_TYPES) b1)) ∧
       can_handle h (b0 :: b1 :: b2 :: b3 :: rest) = .ok false) ∧
    ((h.PACKET_TYPES = [] ∨ tableMem h.PACKET_TYPES b1 = true) →
     h.PACKET_SUBTYPES ≠ [] → tableMem h.PACKET_SUBTYPES b2 = false →
       validate_packet h (b0 :: b1 :: b2 :: b3 :: rest) =
         .error (.rfx (.unknownPacketSubtype (tableKeys h.PACKET_SUBTYPES) b2))) := by
  have hb0 : b0 = rest.length + 3 := by simp at hlen; omega
  subst hb0
  constructor
  · intro hne hmem
    have hv : validate_packet h
        ((rest.length + 3) :: b1 :: b2 :: b3 :: rest) =
        .error (.rfx (.unknownPacketType (tableKeys h.PACKET_TYPES) b1)) := by
      simp [validate_packet, hne, hmem]
    exact ⟨hv, can_handle_of_rfx h _ _ hv⟩
  · intro htype hne hmem
    have ht' : ¬(h.PACKET_TYPES ≠ [] ∧ tableMem h.PACKET_TYPES b1 = false) := by
      rintro ⟨hne1, hmem1⟩
      rcases htype with he | he
      · exact hne1 he
      · rw [he] at hmem1; cases hmem1
    simp [validate_packet, ht', hne, hmem]

/-- Witness for C4: a handler with type table `{0x20}` and subtype table
`{0x01}` rejects `[4, 0x21, 0x01, 5, 0]` with `UnknownPacketType` (and
`can_handle` says `False`), and rejects `[4, 0x20, 0x02, 5, 0]` with
`UnknownPacketSubtype`. -/
theorem validate_unknown_codes_witness :
    (validate_packet ⟨[(32, "t")], [(1, "s")]⟩ [4, 33, 1, 5, 0] =
       .error (.rfx (.unknownPacketType [32] 33)) ∧
     can_handle ⟨[(32, "t")], [(1, "s")]⟩ [4, 33, 1, 5, 0] = .ok false) ∧
    validate_packet ⟨[(32, "t")], [(1, "s")]⟩ [4, 32, 2, 5, 0] =
      .error (.rfx (.unknownPacketSubtype [1] 2)) :=
  ⟨(validate_unknown_codes ⟨[(32, "t")], [(1, "s")]⟩ 4 33 1 5 [0]
      (by decide)).1 (by decide) (by decide),
   (validate_unknown_codes ⟨[(32, "t")], [(1, "s")]⟩ 4 32 2 5 [0]
      (by decide)).2 (Or.inr (by decide)) (by decide) (by decide)⟩

/-- C5: `can_handle` returns `True` exactly when `validate_packet` does;
each of the four taxonomy failures is converted to `False`; and any other
failure — here the `IndexError` of indexing an empty frame — propagates
out of `can_handle` uncaught. -/
theorem can_handle_spec (h : Handler) (data : Frame) :
    (can_handle h data = .ok true ↔ validate_packet h data = .ok true) ∧
    (∀ e : RFXError, validate_packet h data = .error (.rfx e) →
       can_handle h data = .ok false) ∧
    (validate_packet h data = .error .indexError →
       can_handle h data = .error .indexError) := by
  refine ⟨?_, fun e hv => can_handle_of_rfx h data e hv, ?_⟩
  · cases hv : validate_packet h data with
    | ok b => simp [can_handle, hv]
    | error e => cases e <;> simp [can_handle, hv]
  · intro hv
    simp [can_handle, hv]

/-- Witness for C5: on the empty frame, `validate_packet` raises
`IndexError`, which `can_handle` lets escape; on a frame with an unknown
type byte the taxonomy failure becomes `False`. -/
theorem can_handle_spec_witness :
    can_handle ⟨[], []⟩ [] = .error .indexError ∧
    can_handle ⟨[(32, "t")], []⟩ [4, 33, 1, 5, 0] = .ok false :=
  ⟨(can_handle_spec ⟨[], []⟩ []).2.2 rfl,
   (can_handle_spec ⟨[(32, "t")], []⟩ [4, 33, 1, 5, 0]).2.1
     (.unknownPacketType [32] 33) rfl⟩

/-- C6: on any frame with at least four bytes, `parse_header_part` returns
the record with `packet_length` = byte 0, `packet_type` = byte 1,
`packet_subtype` = byte 2, `sequence_number` = byte 3, and the type and
subtype names looked up in the handler's tables by `dict.get` — `none`
(never a failure) when the code is absent; in particular the frame
`[0x07, 0x20, 0x01, 0x05, ...]` yields length 7, type `0x20`, subtype
`0x01`, sequence number `0x05`. -/
theorem parse_header_part_fields (h : Handler) (b0 b1 b2 b3 : Nat)
    (rest : List Nat) :
    parse_header_part h (b0 :: b1 :: b2 :: b3 :: rest) =
      .ok { packet_length := b0
            packet_type := b1
            packet_type_name := tableGet h.PACKET_TYPES b1
            packet_subtype := b2
            packet_subtype_name := tableGet h.PACKET_SUBTYPES b2
            sequence_number := b3 } := rfl

/-- Counterexample for C7: `Packet.parse` on the non-empty frame `[4]`
reads byte 1 out of range and raises `IndexError` instead of returning a
record, so it does not hold for every non-empty frame. -/
theorem raw_parse_counterexample :
    Packet.parse [4] = .error .indexError := rfl

/-- C7 (amended): `Packet.can_handle` returns `True` on every frame, and
`Packet.parse` never raises on any frame with at least three bytes,
returning exactly `{packet_length: f[0], packet_type: f[1],
packet_subtype: f[2], packet: f}` — in particular on
`[0x04, 0x10, 0x02, 0xFF]` it returns `{packet_length: 4,
packet_type: 0x10, packet_subtype: 0x02, packet: [0x04,0x10,0x02,0xFF]}`. -/
theorem raw_packet_spec (data : Frame) (b0 b1 b2 : Nat) (rest : List Nat) :
    Packet.can_handle data = true ∧
    Packet.parse (b0 :: b1 :: b2 :: rest) =
      .ok { packet_length := b0, packet_type := b1, packet_subtype := b2,
            packet := b0 :: b1 :: b2 :: rest } :=
  ⟨rfl, rfl⟩

/-- C8: whenever `load` completes successfully, the stored `raw` is the
input frame byte for byte and the returned data is exactly the result of
`parse` on that frame. -/
theorem load_roundtrip {α : Type} (parse : Frame → Except PyError α)
    (now : Nat) (data : Frame) (st : LoadedState α)
    (hok : load parse now data = .ok st) :
    st.raw = data ∧ parse data = .ok st.data := by
  unfold load at hok
  cases hp : parse data with
  | ok d =>
    rw [hp] at hok
    injection hok with hok
    subst hok
    exact ⟨rfl, rfl⟩
  | error e =>
    rw [hp] at hok
    cases hok

/-- Witness for C8: loading `[4, 16, 2, 255]` through the catch-all parse
at clock 0 stores that very frame as `raw` and returns its parse. -/
theorem load_roundtrip_witness :
    ({ loaded_at := 0, raw := [4, 16, 2, 255],
       data := { packet_length := 4, packet_type := 16, packet_subtype := 2,
                 packet := [4, 16, 2, 255] } } :
        LoadedState RawParsed).raw = [4, 16, 2, 255] ∧
    Packet.parse [4, 16, 2, 255] =
      .ok ({ loaded_at := 0, raw := [4, 16, 2, 255],
             data := { packet_length := 4, packet_type := 16,
                       packet_subtype := 2,
                       packet := [4, 16, 2, 255] } } :
              LoadedState RawParsed).data :=
  load_roundtrip Packet.parse 0 [4, 16, 2, 255] _ rfl

/-- C9: `load` is deterministic apart from the timestamp — two calls on
the same frame, with any clock readings, through handlers whose type and
subtype tables are equal, store equal `raw` and equal parsed `data`; the
result depends only on the frame and the fixed tables. -/
theorem load_deterministic {α : Type} (h1 h2 : Handler)
    (heqT : h1.PACKET_TYPES = h2.PACKET_TYPES)
    (heqS : h1.PACKET_SUBTYPES = h2.PACKET_SUBTYPES)
    (parse : Handler → Frame → Except PyError α) (t1 t2 : Nat)
    (data : Frame) :
    (load (parse h1) t1 data).map (fun st => (st.raw, st.data)) =
      (load (parse h2) t2 data).map (fun st => (st.raw, st.data)) := by
  have heq : h1 = h2 := by
    cases h1; cases h2
    simp only at heqT heqS
    rw [heqT, heqS]
  subst heq
  cases hp : parse h1 data <;> simp [load, hp, Except.map]

/-- Witness for C9: two loads of `[4, 16, 2, 255]` at clocks 0 and 1
through two handlers with equal (empty) tables agree on raw frame and
parsed data. -/
theorem load_deterministic_witness :
    (load Packet.parse 0 [4, 16, 2, 255]).map (fun st => (st.raw, st.data)) =
      (load Packet.parse 1 [4, 16, 2, 255]).map (fun st => (st.raw, st.data)) :=
  load_deterministic ⟨[], []⟩ ⟨[], []⟩ rfl rfl (fun _ => Packet.parse) 0 1
    [4, 16, 2, 255]

/-- C10: on any non-empty frame, `validate_packet` never performs an
out-of-range byte access — byte 0 is the only unconditional read, and
bytes 1 and 2 are read only after the two length checks have ensured the
frame holds at least four bytes, so no `IndexError` can arise. -/
theorem validate_no_index_error (h : Handler) (b0 : Nat) (rest : List Nat) :
    validate_packet h (b0 :: rest) ≠ .error .indexError := by
  by_cases hlen : rest.length = b0
  · subst hlen
    by_cases hmin : rest.length + 1 < 4
    · simp [validate_packet, hmin]
    · rcases rest with _ | ⟨r1, _ | ⟨r2, _ | ⟨r3, rest3⟩⟩⟩
      · simp at hmin
      · simp at hmin
      · simp at hmin
      · have hmin' : ¬(rest3.length + 1 + 1 + 1 + 1 < 4) := by omega
        by_cases hc : h.PACKET_TYPES ≠ [] ∧ tableMem h.PACKET_TYPES r1 = false
        · simp [validate_packet, hmin', hc]
        · by_cases hd : h.PACKET_SUBTYPES ≠ [] ∧ tableMem h.PACKET_SUBTYPES r2 = false
          · simp [validate_packet, hmin', hc, hd]
          · simp [validate_packet, hmin', hc, hd]
  · rw [validate_packet_mismatch h b0 rest hlen]
    simp

end Rfxcom
